import Mathlib

/-!
Shallow embedding of the VocalizeAI (Karatrack Studio) backend core:
the credit ledger (SQL functions `deduct_credits` / `add_credits` in the
database schema), the cost function `calculateCreditsNeeded`, the
project-creation route handler, and the two webhook handlers
(`/api/webhooks/stripe`, `/api/webhooks/runpod`) from
`src/backend/src/index.js`.

Modelling conventions:
- The handlers operate on one user's row and one project's row, so state
  is modelled per user / per project; a database row fetch is modelled by
  passing the (optional) row as an argument.
- JavaScript `undefined`/`null` (and the column values they produce) are
  modelled as `Option` with `none`; the JS fallback `a || b` on such
  values is `jsOr`. In a supabase `update`, a key whose value is
  `undefined` is dropped from the update, leaving the column unchanged,
  which coincides with `jsOr` against the current value.
- Timestamps (`new Date().toISOString()`) are modelled as an abstract
  `Nat` clock value supplied to the handler.
- Fallible external calls (object store, database inserts, worker
  dispatch) are modelled by Boolean outcome oracles; a `false` outcome
  corresponds to the call throwing, which the route's `catch` turns into
  a 500 response.
-/

namespace Vocalize

/-- JS truthiness fallback `a || b` restricted to optional string values
(`none` models both `undefined`/`null` and the dropped-key case). -/
def jsOr (a b : Option String) : Option String :=
  match a with
  | some v => some v
  | none => b

/-- One row of `public.profiles` (the columns the core logic touches).
Schema defaults: tier `free`, `credits_remaining` 3, `credits_used_this_month` 0. -/
structure Profile where
  credits_remaining : Int
  credits_used_this_month : Int
  subscription_tier : String
  stripe_subscription_id : Option String
deriving DecidableEq

/-- One row of `public.credit_transactions` (audit ledger). -/
structure CreditTransaction where
  amount : Int
  balance_after : Int
  transaction_type : String
  description : Option String
  project_id : Option String
  stripe_payment_id : Option String
deriving DecidableEq

/-- A user's ledger-relevant state: the profile row plus that user's
credit transactions in creation order. -/
structure UserState where
  profile : Profile
  transactions : List CreditTransaction
deriving DecidableEq

/-- SQL function `public.deduct_credits` (schema lines 208-240): reads the
current balance under `FOR UPDATE`, returns `FALSE` without mutating
anything when `v_current_credits < p_amount`, otherwise writes the new
balance, bumps `credits_used_this_month`, and inserts one `usage`
transaction with the negative amount and resulting balance. -/
def deduct_credits (st : UserState) (p_amount : Int) (p_project_id : Option String)
    (p_description : Option String) : Bool × UserState :=
  let v_current_credits := st.profile.credits_remaining
  if v_current_credits < p_amount then
    (false, st)
  else
    let v_new_balance := v_current_credits - p_amount
    (true,
      { profile :=
          { st.profile with
            credits_remaining := v_new_balance,
            credits_used_this_month := st.profile.credits_used_this_month + p_amount },
        transactions := st.transactions ++
          [{ amount := -p_amount, balance_after := v_new_balance,
             transaction_type := "usage", description := p_description,
             project_id := p_project_id, stripe_payment_id := none }] })

/-- SQL function `public.add_credits` (schema lines 242-263): increments the
balance unconditionally, inserts one transaction with the positive amount
and resulting balance, and returns the new balance. -/
def add_credits (st : UserState) (p_amount : Int) (p_transaction_type : String)
    (p_description : Option String) (p_stripe_payment_id : Option String) :
    Int × UserState :=
  let v_new_balance := st.profile.credits_remaining + p_amount
  (v_new_balance,
    { profile := { st.profile with credits_remaining := v_new_balance },
      transactions := st.transactions ++
        [{ amount := p_amount, balance_after := v_new_balance,
           transaction_type := p_transaction_type, description := p_description,
           project_id := none, stripe_payment_id := p_stripe_payment_id }] })

/-- A ledger operation: either a debit through `deduct_credits` or a
credit through `add_credits`. -/
inductive LedgerOp where
  | debit (amount : Int) (project_id : Option String) (description : Option String)
  | credit (amount : Int) (kind : String) (description : Option String)
      (stripe_payment_id : Option String)
deriving DecidableEq

/-- The requested amount of a ledger operation. -/
def LedgerOp.amount : LedgerOp → Int
  | .debit a _ _ => a
  | .credit a _ _ _ => a

/-- Apply one ledger operation to a user's state (result flag of a failed
debit is the caller's concern; the state is unchanged in that case). -/
def applyOp (st : UserState) : LedgerOp → UserState
  | .debit a pid d => (deduct_credits st a pid d).2
  | .credit a k d spid => (add_credits st a k d spid).2

/-- Apply a sequence of ledger operations in order. -/
def applyOps (st : UserState) (ops : List LedgerOp) : UserState :=
  ops.foldl applyOp st

/-- Replay a transaction list in creation order from a starting balance,
adding each signed amount. -/
def replayBalance (start : Int) (txns : List CreditTransaction) : Int :=
  txns.foldl (fun b t => b + t.amount) start

/-- Check that each transaction's recorded `balance_after` equals the
running balance obtained by replaying from `start`. -/
def balancesOk : Int → List CreditTransaction → Bool
  | _, [] => true
  | b, t :: ts => (t.balance_after == b + t.amount) && balancesOk (b + t.amount) ts

/-- A user state as created at signup with starting balance `b` and an
empty transaction log (the trigger `handle_new_user` inserts only
id/email/name/avatar, so the schema defaults apply and no transaction
records the starting grant). -/
def initialUser (b : Int) : UserState :=
  { profile :=
      { credits_remaining := b, credits_used_this_month := 0,
        subscription_tier := "free", stripe_subscription_id := none },
    transactions := [] }

/-- A freshly signed-up user: schema default `credits_remaining` is 3. -/
def freshUserState : UserState := initialUser 3

/-- The options record passed to `calculateCreditsNeeded` by the
project-creation handler. -/
structure CreditOptions where
  processing_type : Option String
  include_lyrics : Bool
  video_quality : Option String
  hd_quality : Bool
deriving DecidableEq

/-- `calculateCreditsNeeded` (index.js lines 210-237): base cost 2 for
`both`, otherwise 1; lyrics always add 1; then quality adds 1/3/5/7 for
480p/720p/1080p/4k and 1 (the 480p charge) for anything else. -/
def calculateCreditsNeeded (options : CreditOptions) : Nat :=
  let credits : Nat := 0
  let credits :=
    if options.processing_type = some "both" then credits + 2 else credits + 1
  let credits := credits + 1
  let credits :=
    if options.video_quality = some "480p" then credits + 1
    else if options.video_quality = some "720p" then credits + 3
    else if options.video_quality = some "1080p" then credits + 5
    else if options.video_quality = some "4k" then credits + 7
    else credits + 1
  credits

/-- The quality component of `calculateCreditsNeeded`, factored out for
stating the decomposition of the cost. -/
def qualitySurcharge (q : Option String) : Nat :=
  if q = some "480p" then 1
  else if q = some "720p" then 3
  else if q = some "1080p" then 5
  else if q = some "4k" then 7
  else 1

/-- One row of `public.projects` (the columns the core handlers touch). -/
structure Project where
  status : String
  credits_used : Nat
  processed_audio_url : Option String
  vocals_audio_url : Option String
  lyrics_json : Option String
  video_url : Option String
  runpod_job_id : Option String
  error_message : Option String
  notify_on_complete : Bool
  processing_started_at : Option Nat
  processing_completed_at : Option Nat
  transcription_completed_at : Option Nat
deriving DecidableEq

/-- The `results` object of a worker callback. -/
structure RunpodResults where
  processed_audio_url : Option String
  vocals_audio_url : Option String
  lyrics : Option String
  video_url : Option String
deriving DecidableEq

/-- Body of a worker callback `POST /api/webhooks/runpod` (the fetched
project row is passed separately; `error` is destructured as
`processingError` in the route). -/
structure RunpodCallback where
  status : Option String
  results : Option RunpodResults
  error : Option String
deriving DecidableEq

/-- Notification side effects emitted by the runpod webhook. -/
inductive EmailKind where
  | completion
  | failure
deriving DecidableEq

/-- The `/api/webhooks/runpod` handler (index.js lines 1375-1469), acting
on the fetched project row (`none` when the id matched no row, in which
case the `update ... eq(id)` touches nothing and `project && ...` skips
the email). The three branches are `transcribed && results`,
`completed && results`, and `failed`; no branch inspects the project's
current status before updating it. Any other callback falls through to
the final `res.json` with no effect. -/
def runpodWebhook (project : Option Project) (cb : RunpodCallback) (now : Nat) :
    Option Project × List EmailKind :=
  match cb.status, cb.results with
  | some "transcribed", some r =>
    (project.map (fun p =>
      { p with
        status := "awaiting_review",
        processed_audio_url := jsOr r.processed_audio_url p.processed_audio_url,
        vocals_audio_url := jsOr r.vocals_audio_url p.vocals_audio_url,
        lyrics_json := jsOr r.lyrics p.lyrics_json,
        transcription_completed_at := some now }), [])
  | some "completed", some r =>
    let project' := project.map (fun p =>
      { p with
        status := "completed",
        processed_audio_url := jsOr r.processed_audio_url p.processed_audio_url,
        vocals_audio_url := jsOr r.vocals_audio_url p.vocals_audio_url,
        lyrics_json := jsOr r.lyrics p.lyrics_json,
        video_url := jsOr r.video_url p.video_url,
        processing_completed_at := some now })
    let emails :=
      match project with
      | some p => if p.notify_on_complete then [EmailKind.completion] else []
      | none => []
    (project', emails)
  | some "failed", _ =>
    let project' := project.map (fun p =>
      { p with
        status := "failed",
        error_message := some (cb.error.getD "Processing failed"),
        processing_completed_at := some now })
    let emails :=
      match project with
      | some p => if p.notify_on_complete then [EmailKind.failure] else []
      | none => []
    (project', emails)
  | _, _ => (project, [])

/-- Combined per-request system state: the requesting user's ledger state
and the project row the request concerns. -/
structure SysState where
  user : UserState
  project : Option Project
deriving DecidableEq

/-- Apply the runpod webhook at system level: it only ever updates the
`projects` table, never `profiles` or `credit_transactions`. -/
def runpodWebhookSys (st : SysState) (cb : RunpodCallback) (now : Nat) :
    SysState × List EmailKind :=
  let r := runpodWebhook st.project cb now
  ({ st with project := r.1 }, r.2)

/-- The fields of a `POST /api/projects` request body (plus whether the
multipart upload carried an audio file) that the handler's control flow
reads. Raw string fields keep their string form because the route
compares them to string literals. -/
structure CreateRequest where
  title : Option String
  original_file_name : String
  lyrics_text : Option String
  processing_type : Option String
  include_lyrics : Option String
  video_quality : Option String
  processing_mode : Option String
  notify_on_complete : Option String
  hasAudioFile : Bool
deriving DecidableEq

/-- JS `.trim()` modelled on the character list: drop leading and
trailing whitespace. -/
def jsTrim (cs : List Char) : List Char :=
  ((cs.dropWhile Char.isWhitespace).reverse.dropWhile Char.isWhitespace).reverse

/-- The route's lyrics validation `!lyrics_text || lyrics_text.trim().length < 50`,
as the condition for the lyrics being valid. -/
def validLyrics : Option String → Bool
  | none => false
  | some s => decide (50 ≤ (jsTrim s.toList).length)

/-- Outcomes of the fallible external calls made by the project-creation
route, in program order. `true` means the call succeeded; `false` means
it threw (turned into a 500 by the route's catch), except for
`persistOk`: the final status update's result is ignored by the code, so
its failure only loses the write. -/
structure ExternalCalls where
  profileFetchOk : Bool
  uploadOk : Bool
  insertOk : Bool
  deductRpcOk : Bool
  profileFetch2Ok : Bool
  dispatchOk : Bool
  persistOk : Bool
deriving DecidableEq

/-- All external calls succeed. -/
def ExternalCalls.allOk (e : ExternalCalls) : Bool :=
  e.profileFetchOk && e.uploadOk && e.insertOk && e.deductRpcOk &&
    e.profileFetch2Ok && e.dispatchOk && e.persistOk

/-- Trace events of the project-creation route, for stating ordering. -/
inductive Step where
  | validated
  | debited
  | dispatched
  | persisted
deriving DecidableEq

/-- The `POST /api/projects` handler (index.js lines 630-800): validate
(audio file present, lyrics at least 50 characters after trim), compute
the cost, check the balance (402 with `credits_needed` when short),
upload, insert the project with status `queued`, call the
`deduct_credits` RPC (its Boolean result is ignored by the code), fetch
the profile for the tier, dispatch to the worker, then update the
project to `processing`/`transcribing` with the job handle and a start
timestamp (that update's result is ignored). Returns the HTTP status,
the new state, and the trace of completed steps. -/
def createProject (req : CreateRequest) (ext : ExternalCalls) (st : SysState)
    (now : Nat) (projectId : String) (jobId : String) :
    Nat × SysState × List Step :=
  if req.hasAudioFile = false then (400, st, [])
  else if validLyrics req.lyrics_text = false then (400, st, [])
  else
    let creditsNeeded := calculateCreditsNeeded
      { processing_type := req.processing_type,
        include_lyrics := req.include_lyrics = some "true",
        video_quality := req.video_quality,
        hd_quality := false }
    if ext.profileFetchOk = false then (500, st, [Step.validated])
    else
      let hasCredits := (creditsNeeded : Int) ≤ st.user.profile.credits_remaining
      if ¬ hasCredits then (402, st, [Step.validated])
      else if ext.uploadOk = false then (500, st, [Step.validated])
      else if ext.insertOk = false then (500, st, [Step.validated])
      else
        let inserted : Project :=
          { status := "queued", credits_used := creditsNeeded,
            processed_audio_url := none, vocals_audio_url := none,
            lyrics_json := none, video_url := none, runpod_job_id := none,
            error_message := none,
            notify_on_complete := ¬ (req.notify_on_complete = some "false"),
            processing_started_at := none, processing_completed_at := none,
            transcription_completed_at := none }
        let st1 : SysState := { st with project := some inserted }
        if ext.deductRpcOk = false then (500, st1, [Step.validated])
        else
          let deducted := deduct_credits st1.user (creditsNeeded : Int)
            (some projectId)
            (some ("Processing: " ++ (req.title.getD req.original_file_name)))
          let st2 : SysState := { st1 with user := deducted.2 }
          let tr1 := if deducted.1 then [Step.validated, Step.debited]
                     else [Step.validated]
          if ext.profileFetch2Ok = false then (500, st2, tr1)
          else if ext.dispatchOk = false then (500, st2, tr1)
          else
            let initialStatus :=
              if req.processing_mode = some "transcribe_only" then "transcribing"
              else "processing"
            if ext.persistOk = false then (201, st2, tr1 ++ [Step.dispatched])
            else
              let st3 : SysState :=
                { st2 with
                  project := st2.project.map (fun p =>
                    { p with
                      status := initialStatus,
                      runpod_job_id := some jobId,
                      processing_started_at := some now }) }
              (201, st3, tr1 ++ [Step.dispatched, Step.persisted])

/-- One row of `public.subscription_plans` (the columns the webhook reads). -/
structure SubscriptionPlan where
  tier : String
  credits_per_month : Int
deriving DecidableEq

/-- A verified payment-processor event, reduced to the data the handler's
switch reads. The Boolean `Found` fields model whether the corresponding
database lookup (profile by customer id, plan by price id) matched a row;
a miss is logged and the event dropped. -/
inductive StripeEvent where
  | checkoutCreditPurchase (credits : Int) (payment_intent : Option String)
  | checkoutSubscription (is_upgrade : Bool) (plan : Option SubscriptionPlan)
  | subscriptionCreatedOrUpdated (profileFound : Bool) (plan : Option SubscriptionPlan)
      (subscription_id : String)
  | subscriptionDeleted (profileFound : Bool)
  | invoicePaid (billing_reason_cycle : Bool) (profileFound : Bool)
      (plan : Option SubscriptionPlan)
  | unhandled
deriving DecidableEq

/-- The switch body of the stripe webhook (index.js lines 1211-1365),
applied to the (single) affected user's state. -/
def processStripeEvent (ev : StripeEvent) (st : SysState) : SysState :=
  match ev with
  | .checkoutCreditPurchase credits payment_intent =>
    { st with user := (add_credits st.user credits "purchase"
        (some ("Purchased " ++ toString credits ++ " credits")) payment_intent).2 }
  | .checkoutSubscription is_upgrade plan =>
    match plan with
    | some pl =>
      { st with user := (add_credits st.user pl.credits_per_month
          (if is_upgrade then "upgrade" else "subscription_renewal")
          (some (pl.tier ++ " subscription credits")) none).2 }
    | none => st
  | .subscriptionCreatedOrUpdated profileFound plan subscription_id =>
    if profileFound then
      match plan with
      | some pl =>
        { st with user :=
            { st.user with profile :=
                { st.user.profile with
                  subscription_tier := pl.tier,
                  stripe_subscription_id := some subscription_id } } }
      | none => st
    else st
  | .subscriptionDeleted profileFound =>
    if profileFound then
      { st with user :=
          { st.user with profile :=
              { st.user.profile with
                subscription_tier := "free",
                stripe_subscription_id := none } } }
    else st
  | .invoicePaid billing_reason_cycle profileFound plan =>
    if billing_reason_cycle && profileFound then
      match plan with
      | some pl =>
        let user1 := (add_credits st.user pl.credits_per_month
          "subscription_renewal" (some "Monthly renewal") none).2
        { st with user :=
            { user1 with profile :=
                { user1.profile with credits_used_this_month := 0 } } }
      | none => st
    else st
  | .unhandled => st

/-- The `/api/webhooks/stripe` handler (index.js lines 1198-1372): the
argument is the result of `stripe.webhooks.constructEvent(body, sig,
secret)`, which throws (here: `Except.error`) exactly when the signature
does not verify against the shared secret; in that case the route
returns 400 immediately and the switch never runs. -/
def stripeWebhook (ev : Except String StripeEvent) (st : SysState) :
    Nat × SysState :=
  match ev with
  | .error _ => (400, st)
  | .ok e => (200, processStripeEvent e st)

/-- The ledger-replay invariant: replaying the transaction log from the
starting balance `b` reproduces the current balance, and every recorded
`balance_after` matches the running balance. -/
def LedgerInv (b : Int) (st : UserState) : Prop :=
  replayBalance b st.transactions = st.profile.credits_remaining ∧
  balancesOk b st.transactions = true

/-- A concrete project sitting in `queued` (created but never dispatched). -/
def queuedProject : Project :=
  { status := "queued", credits_used := 5, processed_audio_url := none,
    vocals_audio_url := none, lyrics_json := none, video_url := none,
    runpod_job_id := none, error_message := none, notify_on_complete := true,
    processing_started_at := none, processing_completed_at := none,
    transcription_completed_at := none }

/-- A concrete `completed` worker callback carrying results. -/
def completedCallback : RunpodCallback :=
  { status := some "completed",
    results := some
      { processed_audio_url := some "instrumental.mp3",
        vocals_audio_url := some "vocals.mp3",
        lyrics := some "timing-json",
        video_url := some "final.mp4" },
    error := none }

/-- A concrete `failed` worker callback. -/
def failedCallback : RunpodCallback :=
  { status := some "failed", results := none, error := some "GPU worker crashed" }

/-- A concrete well-formed project-creation request (lyrics are 50
characters, so validation passes). -/
def demoRequest : CreateRequest :=
  { title := some "Demo Song", original_file_name := "song.mp3",
    lyrics_text := some "aaaaaaaaaaaaaaaaaaaaaaaaaaaaaaaaaaaaaaaaaaaaaaaaaa",
    processing_type := some "remove_vocals", include_lyrics := some "true",
    video_quality := some "720p", processing_mode := none,
    notify_on_complete := none, hasAudioFile := true }

/-- The same request with the audio file missing (validation fails). -/
def noAudioRequest : CreateRequest :=
  { demoRequest with hasAudioFile := false }

/-- External-call oracle where every call succeeds. -/
def allOkCalls : ExternalCalls :=
  { profileFetchOk := true, uploadOk := true, insertOk := true,
    deductRpcOk := true, profileFetch2Ok := true, dispatchOk := true,
    persistOk := true }

/-- A starting system state: a user holding 10 credits, no project yet. -/
def demoState : SysState :=
  { user := initialUser 10, project := none }

section Theorems

theorem jsOr_left_absorb (a b : Option String) : jsOr a (jsOr a b) = jsOr a b := by
  cases a <;> rfl

theorem replayBalance_cons (b : Int) (t : CreditTransaction)
    (ts : List CreditTransaction) :
    replayBalance b (t :: ts) = replayBalance (b + t.amount) ts := by
  simp [replayBalance]

theorem replayBalance_append_single (b : Int) (ts : List CreditTransaction)
    (t : CreditTransaction) :
    replayBalance b (ts ++ [t]) = replayBalance b ts + t.amount := by
  simp [replayBalance, List.foldl_append]

theorem balancesOk_append_single (b : Int) (ts : List CreditTransaction)
    (t : CreditTransaction) :
    balancesOk b (ts ++ [t])
      = (balancesOk b ts && (t.balance_after == replayBalance b ts + t.amount)) := by
  induction ts generalizing b with
  | nil => simp [balancesOk, replayBalance]
  | cons u us ih =>
    simp only [List.cons_append, balancesOk, List.append_eq, ih,
      replayBalance_cons, Bool.and_assoc]

theorem ledgerInv_applyOp (b : Int) (st : UserState) (op : LedgerOp)
    (h : LedgerInv b st) : LedgerInv b (applyOp st op) := by
  obtain ⟨h1, h2⟩ := h
  cases op with
  | debit a pid d =>
    simp only [applyOp, deduct_credits]
    split_ifs with hlt
    · exact ⟨h1, h2⟩
    · constructor
      · simp [replayBalance_append_single, h1, sub_eq_add_neg]
      · simp [balancesOk_append_single, h1, h2, sub_eq_add_neg]
  | credit a k dd spid =>
    constructor
    · simp [applyOp, add_credits, replayBalance_append_single, h1]
    · simp [applyOp, add_credits, balancesOk_append_single, h1, h2]

theorem ledgerInv_applyOps (b : Int) (st : UserState) (ops : List LedgerOp)
    (h : LedgerInv b st) : LedgerInv b (applyOps st ops) := by
  induction ops generalizing st with
  | nil => simpa [applyOps] using h
  | cons op ops ih =>
    simpa [applyOps] using ih (applyOp st op) (ledgerInv_applyOp b st op h)

theorem applyOps_nonneg (ops : List LedgerOp) (st : UserState)
    (h0 : 0 ≤ st.profile.credits_remaining)
    (h : ∀ op ∈ ops, 0 ≤ op.amount) :
    0 ≤ (applyOps st ops).profile.credits_remaining := by
  induction ops generalizing st with
  | nil => simpa [applyOps] using h0
  | cons op ops ih =>
    have hop : (0:Int) ≤ op.amount := h op (List.mem_cons_self _ _)
    have hrest : ∀ o ∈ ops, (0:Int) ≤ o.amount :=
      fun o ho => h o (List.mem_cons_of_mem _ ho)
    have hstep : 0 ≤ (applyOp st op).profile.credits_remaining := by
      cases op with
      | debit a pid d =>
        simp only [LedgerOp.amount] at hop
        simp only [applyOp, deduct_credits]
        split_ifs with hlt
        · exact h0
        · simp only []
          omega
      | credit a k dd spid =>
        simp only [LedgerOp.amount] at hop
        simp only [applyOp, add_credits]
        omega
    simpa [applyOps] using ih (applyOp st op) hstep hrest

/-- C1: `deduct_credits` fails, returning `false` and leaving the user's
balance, `credits_used_this_month` and the transaction log untouched, iff
the requested amount exceeds `credits_remaining` at the time of the
check; on success it decrements the balance by the amount, increments
`credits_used_this_month` by the amount, and appends exactly one `usage`
transaction carrying the negative amount and the resulting balance. -/
theorem deduct_credits_spec (st : UserState) (amount : Int)
    (pid d : Option String) :
    ((deduct_credits st amount pid d).1 = false ↔
      amount > st.profile.credits_remaining) ∧
    ((deduct_credits st amount pid d).1 = false →
      (deduct_credits st amount pid d).2 = st) ∧
    ((deduct_credits st amount pid d).1 = true →
      (deduct_credits st amount pid d).2.profile.credits_remaining
          = st.profile.credits_remaining - amount ∧
      (deduct_credits st amount pid d).2.profile.credits_used_this_month
          = st.profile.credits_used_this_month + amount ∧
      (deduct_credits st amount pid d).2.transactions
          = st.transactions ++
            [{ amount := -amount,
               balance_after := st.profile.credits_remaining - amount,
               transaction_type := "usage", description := d,
               project_id := pid, stripe_payment_id := none }]) := by
  by_cases hlt : st.profile.credits_remaining < amount <;>
    refine ⟨?_, ?_, ?_⟩ <;>
    simp [deduct_credits, hlt, gt_iff_lt]

theorem deduct_credits_spec_witness :
    (deduct_credits freshUserState 5 none none).1 = false ∧
    (deduct_credits freshUserState 5 none none).2 = freshUserState :=
  ⟨(deduct_credits_spec freshUserState 5 none none).1.mpr (by decide),
   (deduct_credits_spec freshUserState 5 none none).2.1
     ((deduct_credits_spec freshUserState 5 none none).1.mpr (by decide))⟩

/-- C2: starting from a nonnegative balance, after any prefix of any
sequence of `deduct_credits` / `add_credits` operations with nonnegative
requested amounts, `credits_remaining` is never negative (a debit that
would overdraw is rejected whole). -/
theorem credits_remaining_never_negative (ops pre suf : List LedgerOp)
    (st : UserState) (h0 : 0 ≤ st.profile.credits_remaining)
    (h : ∀ op ∈ ops, 0 ≤ op.amount) (hsplit : ops = pre ++ suf) :
    0 ≤ (applyOps st pre).profile.credits_remaining := by
  refine applyOps_nonneg pre st h0 (fun op hop => h op ?_)
  rw [hsplit]
  exact List.mem_append_left _ hop

theorem credits_remaining_never_negative_witness :
    0 ≤ (applyOps freshUserState
      [LedgerOp.debit 2 none none, LedgerOp.debit 9 none none]).profile.credits_remaining :=
  credits_remaining_never_negative
    [LedgerOp.debit 2 none none, LedgerOp.debit 9 none none,
     LedgerOp.credit 10 "purchase" none none]
    [LedgerOp.debit 2 none none, LedgerOp.debit 9 none none]
    [LedgerOp.credit 10 "purchase" none none]
    freshUserState (by decide) (by decide) rfl

/-- C3 counterexample: for a freshly signed-up user the schema grants
`credits_remaining = 3` with an empty transaction log, so replaying the
transactions from a starting balance of zero yields 0, not the current
balance — the starting grant is not recorded as a transaction. -/
theorem replay_from_zero_fails :
    ¬ (replayBalance 0 freshUserState.transactions
        = freshUserState.profile.credits_remaining) := by
  decide

/-- C3 (amended): replaying a user's Credit Transactions in creation
order starting from the user's initial balance (the signup grant, which
is not itself logged) reproduces the current `credits_remaining`, and
each transaction's recorded `balance_after` equals the running balance
at that point, for every sequence of ledger operations. -/
theorem ledger_replay_from_initial (b : Int) (ops : List LedgerOp) :
    replayBalance b (applyOps (initialUser b) ops).transactions
        = (applyOps (initialUser b) ops).profile.credits_remaining ∧
    balancesOk b (applyOps (initialUser b) ops).transactions = true :=
  ledgerInv_applyOps b (initialUser b) ops ⟨rfl, rfl⟩

/-- C7: `calculateCreditsNeeded` is a pure function determined by
`processing_type`, `video_quality` and `include_lyrics` alone, and a
single-version request at 480p costs exactly 3 credits. -/
theorem calculateCreditsNeeded_deterministic (o1 o2 : CreditOptions)
    (hp : o1.processing_type = o2.processing_type)
    (hq : o1.video_quality = o2.video_quality)
    (hl : o1.include_lyrics = o2.include_lyrics) :
    calculateCreditsNeeded o1 = calculateCreditsNeeded o2 ∧
    (o1.processing_type ≠ some "both" → o1.video_quality = some "480p" →
      calculateCreditsNeeded o1 = 3) := by
  constructor
  · unfold calculateCreditsNeeded
    rw [hp, hq]
  · intro h1 h2
    simp [calculateCreditsNeeded, h1, h2]

theorem calculateCreditsNeeded_deterministic_witness :
    calculateCreditsNeeded
      { processing_type := some "remove_vocals", include_lyrics := true,
        video_quality := some "480p", hd_quality := false } = 3 :=
  (calculateCreditsNeeded_deterministic
      { processing_type := some "remove_vocals", include_lyrics := true,
        video_quality := some "480p", hd_quality := false }
      { processing_type := some "remove_vocals", include_lyrics := true,
        video_quality := some "480p", hd_quality := false }
      rfl rfl rfl).2 (by decide) rfl

/-- C10: the cost is always between 3 and 10; it decomposes as the
processing component (2 for `both`, else 1) plus 1 for lyrics plus the
quality surcharge; and any `video_quality` outside the four recognized
tiers (including absent) is priced exactly like `480p`. -/
theorem calculateCreditsNeeded_structure :
    (∀ o, 3 ≤ calculateCreditsNeeded o ∧ calculateCreditsNeeded o ≤ 10) ∧
    (∀ o, calculateCreditsNeeded o =
      (if o.processing_type = some "both" then 2 else 1) + 1 +
        qualitySurcharge o.video_quality) ∧
    (∀ o, o.video_quality ∉ [some "480p", some "720p", some "1080p", some "4k"] →
      calculateCreditsNeeded o =
        calculateCreditsNeeded { o with video_quality := some "480p" }) := by
  refine ⟨fun o => ?_, fun o => ?_, fun o h => ?_⟩
  · unfold calculateCreditsNeeded
    split_ifs <;> exact ⟨by decide, by decide⟩
  · unfold calculateCreditsNeeded qualitySurcharge
    split_ifs <;> decide
  · simp only [List.mem_cons, List.mem_singleton, not_or] at h
    obtain ⟨h1, h2, h3, h4⟩ := h
    simp [calculateCreditsNeeded, h1, h2, h3, h4]

theorem calculateCreditsNeeded_structure_witness :
    calculateCreditsNeeded
      { processing_type := some "both", include_lyrics := true,
        video_quality := none, hd_quality := false } =
    calculateCreditsNeeded
      { processing_type := some "both", include_lyrics := true,
        video_quality := some "480p", hd_quality := false } :=
  calculateCreditsNeeded_structure.2.2
    { processing_type := some "both", include_lyrics := true,
      video_quality := none, hd_quality := false } (by decide)

/-- C8: a payment-processor webhook whose signature fails verification
(`constructEvent` throws) is answered with HTTP 400 and causes no state
change at all: no balance, transaction, tier, or subscription-reference
mutation. -/
theorem stripeWebhook_invalid_signature (msg : String) (st : SysState) :
    stripeWebhook (Except.error msg) st = (400, st) := rfl

/-- C5 counterexample: delivering a `completed` callback (with results)
to a project currently in `queued` is not a no-op — the handler has no
predecessor-state guard, so the project row is changed. -/
theorem completed_callback_on_queued_not_noop :
    (runpodWebhook (some queuedProject) completedCallback 7).1
      ≠ some queuedProject := by
  decide

/-- C5 (amended): the runpod webhook applies a `completed` callback
regardless of the project's current status: for a project currently in
`queued`, the callback sets the status to `completed` and stores the
output references and a completion timestamp, rather than being a no-op. -/
theorem completed_callback_applies_unconditionally (p : Project)
    (r : RunpodResults) (e : Option String) (now : Nat)
    (hq : p.status = "queued") :
    (runpodWebhook (some p)
        { status := some "completed", results := some r, error := e } now).1
      = some { p with
          status := "completed",
          processed_audio_url := jsOr r.processed_audio_url p.processed_audio_url,
          vocals_audio_url := jsOr r.vocals_audio_url p.vocals_audio_url,
          lyrics_json := jsOr r.lyrics p.lyrics_json,
          video_url := jsOr r.video_url p.video_url,
          processing_completed_at := some now } := rfl

theorem completed_callback_applies_unconditionally_witness :
    (runpodWebhook (some queuedProject) completedCallback 7).1
      = some { queuedProject with
          status := "completed",
          processed_audio_url := some "instrumental.mp3",
          vocals_audio_url := some "vocals.mp3",
          lyrics_json := some "timing-json",
          video_url := some "final.mp4",
          processing_completed_at := some 7 } :=
  completed_callback_applies_unconditionally queuedProject
    { processed_audio_url := some "instrumental.mp3",
      vocals_audio_url := some "vocals.mp3",
      lyrics := some "timing-json",
      video_url := some "final.mp4" } none 7 rfl

/-- C9: delivering the same terminal worker callback twice with an
identical payload leaves the same final project state as a single
delivery (the second update overwrites with the same values; the
completion timestamp is that of the latest delivery either way), and the
handler is total, so a replay cannot crash it. -/
theorem terminal_callback_idempotent (p : Option Project) (cb : RunpodCallback)
    (t1 t2 : Nat)
    (hterm : (cb.status = some "completed" ∧ cb.results.isSome) ∨
      cb.status = some "failed") :
    (runpodWebhook (runpodWebhook p cb t1).1 cb t2).1
      = (runpodWebhook p cb t2).1 := by
  obtain ⟨r0, rr, e0⟩ := cb
  obtain ⟨hc, hr⟩ | hf := hterm
  · simp only at hc hr
    subst hc
    obtain ⟨r, hr⟩ := Option.isSome_iff_exists.mp hr
    subst hr
    cases p with
    | none => rfl
    | some q => simp [runpodWebhook, jsOr_left_absorb]
  · simp only at hf
    subst hf
    cases rr with
    | none =>
      cases p with
      | none => rfl
      | some q => simp [runpodWebhook]
    | some r =>
      cases p with
      | none => rfl
      | some q => simp [runpodWebhook]

/-- C4: in the project-creation handler the steps run in the fixed order
validate, debit, dispatch, persist-job-handle: the trace of completed
steps is always a prefix of that sequence; when validation fails (no
audio file, or lyrics under the threshold) nothing at all happens (the
state, in particular the ledger, is untouched and the trace is empty);
a dispatch implies the debit succeeded first; a persisted job handle
implies a dispatch happened; and whenever no debit happened the user's
ledger state is unchanged. -/
theorem createProject_step_order (req : CreateRequest) (ext : ExternalCalls)
    (st : SysState) (now : Nat) (projectId jobId : String) :
    ((createProject req ext st now projectId jobId).2.2 = [] ∨
     (createProject req ext st now projectId jobId).2.2 = [Step.validated] ∨
     (createProject req ext st now projectId jobId).2.2
        = [Step.validated, Step.debited] ∨
     (createProject req ext st now projectId jobId).2.2
        = [Step.validated, Step.debited, Step.dispatched] ∨
     (createProject req ext st now projectId jobId).2.2
        = [Step.validated, Step.debited, Step.dispatched, Step.persisted]) ∧
    ((req.hasAudioFile = false ∨ validLyrics req.lyrics_text = false) →
      (createProject req ext st now projectId jobId).2.1 = st ∧
      (createProject req ext st now projectId jobId).2.2 = []) ∧
    (Step.debited ∉ (createProject req ext st now projectId jobId).2.2 →
      (createProject req ext st now projectId jobId).2.1.user = st.user) ∧
    (Step.dispatched ∈ (createProject req ext st now projectId jobId).2.2 →
      Step.debited ∈ (createProject req ext st now projectId jobId).2.2) ∧
    (Step.persisted ∈ (createProject req ext st now projectId jobId).2.2 →
      Step.dispatched ∈ (createProject req ext st now projectId jobId).2.2) := by
  by_cases h1 : req.hasAudioFile = false
  · have e : createProject req ext st now projectId jobId = (400, st, []) := by
      simp [createProject, h1]
    rw [e]
    exact ⟨Or.inl rfl, fun _ => ⟨rfl, rfl⟩, fun _ => rfl, by simp, by simp⟩
  by_cases h2 : validLyrics req.lyrics_text = false
  · have e : createProject req ext st now projectId jobId = (400, st, []) := by
      simp [createProject, h1, h2]
    rw [e]
    exact ⟨Or.inl rfl, fun _ => ⟨rfl, rfl⟩, fun _ => rfl, by simp, by simp⟩
  have hv : (req.hasAudioFile = false ∨ validLyrics req.lyrics_text = false) →
      (createProject req ext st now projectId jobId).2.1 = st ∧
      (createProject req ext st now projectId jobId).2.2 = [] := by
    rintro (h | h)
    · exact absurd h h1
    · exact absurd h h2
  by_cases h3 : ext.profileFetchOk = false
  · refine ⟨?_, hv, ?_, ?_, ?_⟩ <;> simp [createProject, h1, h2, h3]
  by_cases hC : ¬ ((calculateCreditsNeeded
      { processing_type := req.processing_type,
        include_lyrics := req.include_lyrics = some "true",
        video_quality := req.video_quality, hd_quality := false } : Int)
      ≤ st.user.profile.credits_remaining)
  · refine ⟨?_, hv, ?_, ?_, ?_⟩ <;> simp [createProject, h1, h2, h3, hC]
  rw [not_not] at hC
  by_cases h5 : ext.uploadOk = false
  · refine ⟨?_, hv, ?_, ?_, ?_⟩ <;> simp [createProject, h1, h2, h3, hC, h5]
  by_cases h6 : ext.insertOk = false
  · refine ⟨?_, hv, ?_, ?_, ?_⟩ <;> simp [createProject, h1, h2, h3, hC, h5, h6]
  by_cases h7 : ext.deductRpcOk = false
  · refine ⟨?_, hv, ?_, ?_, ?_⟩ <;>
      simp [createProject, h1, h2, h3, hC, h5, h6, h7]
  by_cases h8 : ext.profileFetch2Ok = false
  · refine ⟨?_, hv, ?_, ?_, ?_⟩ <;>
      simp [createProject, h1, h2, h3, hC, h5, h6, h7, h8, deduct_credits,
        not_lt.mpr hC]
  by_cases h9 : ext.dispatchOk = false
  · refine ⟨?_, hv, ?_, ?_, ?_⟩ <;>
      simp [createProject, h1, h2, h3, hC, h5, h6, h7, h8, h9, deduct_credits,
        not_lt.mpr hC]
  by_cases h10 : ext.persistOk = false
  · refine ⟨?_, hv, ?_, ?_, ?_⟩ <;>
      simp [createProject, h1, h2, h3, hC, h5, h6, h7, h8, h9, h10,
        deduct_credits, not_lt.mpr hC]
  refine ⟨?_, hv, ?_, ?_, ?_⟩ <;>
    simp [createProject, h1, h2, h3, hC, h5, h6, h7, h8, h9, h10,
      deduct_credits, not_lt.mpr hC]

/-- C6: a worker callback with status `failed` sets the project's status
to `failed`, stores the error message (or the default) and a completion
timestamp, and never touches the ledger: across a full
queued→processing→failed cycle, the user's ledger state after the
failure callback is exactly the post-debit state, so `credits_remaining`
equals the pre-creation balance minus the computed cost — the debit
taken at creation is not reversed. -/
theorem failed_callback_preserves_credits (req : CreateRequest)
    (ext : ExternalCalls) (st : SysState) (now1 now2 : Nat)
    (projectId jobId : String) (cb : RunpodCallback)
    (haudio : req.hasAudioFile = true)
    (hlyrics : validLyrics req.lyrics_text = true)
    (hext : ext.allOk = true)
    (hcred : (calculateCreditsNeeded
      { processing_type := req.processing_type,
        include_lyrics := req.include_lyrics = some "true",
        video_quality := req.video_quality, hd_quality := false } : Int)
      ≤ st.user.profile.credits_remaining)
    (hmode : req.processing_mode ≠ some "transcribe_only")
    (hfail : cb.status = some "failed") :
    (createProject req ext st now1 projectId jobId).1 = 201 ∧
    (∃ p, (createProject req ext st now1 projectId jobId).2.1.project
        = some p ∧ p.status = "processing") ∧
    (createProject req ext st now1 projectId jobId).2.1.user.profile.credits_remaining
      = st.user.profile.credits_remaining -
        (calculateCreditsNeeded
          { processing_type := req.processing_type,
            include_lyrics := req.include_lyrics = some "true",
            video_quality := req.video_quality, hd_quality := false } : Int) ∧
    (runpodWebhookSys (createProject req ext st now1 projectId jobId).2.1
        cb now2).1.user
      = (createProject req ext st now1 projectId jobId).2.1.user ∧
    (runpodWebhookSys (createProject req ext st now1 projectId jobId).2.1
        cb now2).1.user.profile.credits_remaining
      = st.user.profile.credits_remaining -
        (calculateCreditsNeeded
          { processing_type := req.processing_type,
            include_lyrics := req.include_lyrics = some "true",
            video_quality := req.video_quality, hd_quality := false } : Int) ∧
    (∃ p, (runpodWebhookSys (createProject req ext st now1 projectId jobId).2.1
        cb now2).1.project = some p ∧
      p.status = "failed" ∧
      p.error_message = some (cb.error.getD "Processing failed") ∧
      p.processing_completed_at = some now2) := by
  obtain ⟨cst, cres, cerr⟩ := cb
  simp only at hfail
  subst hfail
  have hx := hext
  simp only [ExternalCalls.allOk, Bool.and_eq_true] at hx
  obtain ⟨⟨⟨⟨⟨⟨hpf, hup⟩, hins⟩, hded⟩, hpf2⟩, hdis⟩, hper⟩ := hx
  have h1 : ¬ (req.hasAudioFile = false) := by simp [haudio]
  have h2 : ¬ (validLyrics req.lyrics_text = false) := by simp [hlyrics]
  have h3 : ¬ (ext.profileFetchOk = false) := by simp [hpf]
  have h5 : ¬ (ext.uploadOk = false) := by simp [hup]
  have h6 : ¬ (ext.insertOk = false) := by simp [hins]
  have h7 : ¬ (ext.deductRpcOk = false) := by simp [hded]
  have h8 : ¬ (ext.profileFetch2Ok = false) := by simp [hpf2]
  have h9 : ¬ (ext.dispatchOk = false) := by simp [hdis]
  have h10 : ¬ (ext.persistOk = false) := by simp [hper]
  have hnlt := not_lt.mpr hcred
  refine ⟨?_, ?_, ?_, rfl, ?_, ?_⟩ <;>
    cases cres <;>
    simp [createProject, runpodWebhookSys, runpodWebhook, h1, h2, h3, h5, h6,
      h7, h8, h9, h10, hcred, hnlt, hmode, deduct_credits]

theorem createProject_step_order_witness :
    (createProject noAudioRequest allOkCalls demoState 1 "p1" "j1").2.1
        = demoState ∧
    (createProject noAudioRequest allOkCalls demoState 1 "p1" "j1").2.2 = [] :=
  (createProject_step_order noAudioRequest allOkCalls demoState 1 "p1" "j1").2.1
    (Or.inl rfl)

theorem failed_callback_preserves_credits_witness :
    (runpodWebhookSys
        (createProject demoRequest allOkCalls demoState 1 "p1" "j1").2.1
        failedCallback 2).1.user.profile.credits_remaining
      = demoState.user.profile.credits_remaining - 5 :=
  (failed_callback_preserves_credits demoRequest allOkCalls demoState 1 2
    "p1" "j1" failedCallback rfl (by decide) rfl (by decide) (by decide)
    rfl).2.2.2.2.1

theorem terminal_callback_idempotent_witness :
    (runpodWebhook (runpodWebhook (some queuedProject) completedCallback 3).1
        completedCallback 9).1
      = (runpodWebhook (some queuedProject) completedCallback 9).1 :=
  terminal_callback_idempotent (some queuedProject) completedCallback 3 9
    (Or.inl ⟨rfl, rfl⟩)

end Theorems

end Vocalize
